import Mathlib

/-!
Shallow embedding of the crownstone-homey app:
* `drivers/crownstone/device.js` (CrownstoneDevice): capability handlers for
  onoff and dim, lock-state and dim-capability reconciliation, BLE fallback
  path with key cache and bounded discovery, and the two module-level
  in-flight flags `activeConnection` / `activeConnectionDim`.
* the app module with flow cards (presence trigger / condition, SSE event
  handler, `getCurrentLocation`).
* `app.ts` (CrownstoneApp): `setupConnections`, `synchronizeCloud`,
  `setSettings`; the Mirror/Mapper components it drives live outside the
  available sources and are modelled from the spec where needed.
-/

/-! ## Dim handler arithmetic (device.js, onCapabilityDim)

`let percentage = value*100; if (percentage > 0 && percentage < 10) percentage = 10;`
followed by `setCapabilityValue('onoff', …)` before `setSwitch(percentage)`.
Numbers are modelled as rationals. -/

def dimPercentage (value : ℚ) : ℚ :=
  let percentage := value * 100
  if 0 < percentage ∧ percentage < 10 then 10 else percentage

/-- Observable actions of the dim-handler body, in dispatch order. -/
inductive DimAct
  | setOnoff (b : Bool)
  | sendDim (percentage : ℚ)
  deriving DecidableEq, Repr

/-- The body of `onCapabilityDim` once the guard has passed: the on/off
capability update (`percentage > 0` forces on, else `percentage < 1` forces
off) happens before `cloud.crownstone(id).setSwitch(percentage)`. -/
def dimActions (value : ℚ) : List DimAct :=
  let percentage := dimPercentage value
  (if 0 < percentage then [DimAct.setOnoff true]
   else if percentage < 1 then [DimAct.setOnoff false]
   else []) ++ [DimAct.sendDim percentage]

/-! ## Lock state and dim capability reconciliation (device.js) -/

structure LockView where
  available : Bool
  lockedFlag : Bool
  deriving DecidableEq, Repr

/-- `changeLockState(state)`: locks (marks unavailable) when `state` holds and
the device is available; unlocks when `state` is false and the device is
unavailable; otherwise does nothing. -/
def changeLockState (state : Bool) (d : LockView) : LockView :=
  if state = true ∧ d.available = true then
    { available := false, lockedFlag := true }
  else if state = false ∧ d.available = false then
    { available := true, lockedFlag := false }
  else d

structure DimCapView where
  caps : List String
  dimmedFlag : Bool
  deriving DecidableEq, Repr

/-- `changeDimCapability(state)`: adds the capability named dim when `state`
holds and it is absent, removes it when `state` is false and it is present,
otherwise does nothing. -/
def changeDimCapability (state : Bool) (d : DimCapView) : DimCapView :=
  if state = true ∧ "dim" ∉ d.caps then
    { caps := d.caps ++ ["dim"], dimmedFlag := true }
  else if state = false ∧ "dim" ∈ d.caps then
    { caps := d.caps.erase "dim", dimmedFlag := false }
  else d

/-! ## Presence trigger (app module flow cards)

`eventHandler` fires `presenceTrigger` with state `{name, id}` exactly when
`data.type === 'presence' && data.subType === 'enterLocation'`; the trigger
run listener resolves `args.rooms.name === state.name && args.rooms.id ===
state.id`. -/

structure SseEvent where
  type : String
  subType : String
  locationId : String
  locationName : String
  deriving DecidableEq, Repr

structure RoomArg where
  id : String
  name : String
  deriving DecidableEq, Repr

/-- The state the event handler passes to `presenceTrigger.trigger`, when it
fires at all: only presence/enterLocation events fire the trigger. -/
def eventHandlerFires (d : SseEvent) : Option RoomArg :=
  if d.type = "presence" ∧ d.subType = "enterLocation" then
    some { id := d.locationId, name := d.locationName }
  else none

/-- The run listener of the presence trigger card. -/
def presenceTriggerRun (args : RoomArg) (state : RoomArg) : Bool :=
  args.name = state.name ∧ args.id = state.id

/-- How many times a registered trigger card configured for `args` runs for a
single incoming SSE event. -/
def triggerFireCount (args : RoomArg) (d : SseEvent) : ℕ :=
  match eventHandlerFires d with
  | some state => if presenceTriggerRun args state then 1 else 0
  | none => 0

/-! ## Key cache (device.js, getKeys)

The device checks `bluenet.settings.{adminKey,memberKey,basicKey} !== null`;
if all three are present no remote call is made, otherwise
`cloud.sphere(sphereId).keys()` is fetched once, the `sphereKeys` array is
partitioned by `keyType` into the device fields, and
`settings.loadKeys(adminKey, memberKey, basicKey)` caches them. -/

structure SphereKeyRec where
  keyType : String
  key : String
  deriving DecidableEq, Repr

structure DevKeyFields where
  adminKey : Option String
  memberKey : Option String
  basicKey : Option String
  deriving DecidableEq, Repr

/-- One iteration of the partition loop of `getKeys`. -/
def partitionStep (d : DevKeyFields) (k : SphereKeyRec) : DevKeyFields :=
  if k.keyType = "ADMIN_KEY" then { d with adminKey := some k.key }
  else if k.keyType = "MEMBER_KEY" then { d with memberKey := some k.key }
  else if k.keyType = "BASIC_KEY" then { d with basicKey := some k.key }
  else d

/-- The partition loop of `getKeys` over the fetched `sphereKeys` array. -/
def partitionKeys (dev : DevKeyFields) (ks : List SphereKeyRec) : DevKeyFields :=
  ks.foldl partitionStep dev

/-- Bluenet settings key slots; `none` models a missing (`null`) key. -/
structure BluenetKeys where
  adminKey : Option String
  memberKey : Option String
  basicKey : Option String
  deriving DecidableEq, Repr

/-- `getKeys`: returns the updated device fields, the updated bluenet
settings, and the number of remote (cloud) calls performed. -/
def getKeys (dev : DevKeyFields) (settings : BluenetKeys)
    (sphereKeys : List SphereKeyRec) : DevKeyFields × BluenetKeys × ℕ :=
  if settings.adminKey.isSome ∧ settings.memberKey.isSome ∧
      settings.basicKey.isSome then
    (dev, settings, 0)
  else
    let dev2 := partitionKeys dev sphereKeys
    (dev2, { adminKey := dev2.adminKey, memberKey := dev2.memberKey,
             basicKey := dev2.basicKey }, 1)

/-! ## In-flight flags and interleaved capability handlers (device.js)

Module-level flags `activeConnection` / `activeConnectionDim` guard the
capability handlers. `onCapabilityOnoff` and `onCapabilityDim` both test
`!activeConnection && Homey.app.getLoginState()`; the handlers suspend at
each `await`, so overlapping invocations interleave. Each handler is
modelled as a thread with a program counter; atomic steps correspond to the
code between suspension points. Transport invocations are logged. -/

inductive CloudCall
  | turnOnOff (value : Bool)
  | setSwitch (percentage : ℚ)
  deriving DecidableEq, Repr

structure FlagState where
  activeConnection : Bool
  activeConnectionDim : Bool
  loginState : Bool
  cloudCalls : List CloudCall
  deriving DecidableEq, Repr

/-- Program counter of an `onCapabilityOnoff` invocation: guard (and flag
set), the cloud/BLE switch dispatch, the dim-capability mirror update, and
the final flag clear. -/
inductive OnoffPC
  | start
  | doSwitch
  | mirrorDim
  | finishClear
  deriving DecidableEq, Repr

/-- Program counter of an `onCapabilityDim` invocation: guard (and dim flag
set), the awaited onoff capability update, the `setSwitch` cloud call, and
the final dim flag clear. -/
inductive DimPC
  | start
  | setOnoffCap
  | doSend
  | finishClear
  deriving DecidableEq, Repr

inductive HandlerThread
  | onoff (value : Bool) (pc : OnoffPC)
  | dim (value : ℚ) (pc : DimPC)
  | finished
  deriving DecidableEq, Repr

/-- One atomic step of a handler thread against the shared flag state. The
guards of both handlers read `activeConnection` only; a failed guard ends
the invocation with no effect (the request is dropped). -/
def stepThread : HandlerThread → FlagState → HandlerThread × FlagState
  | .onoff v .start, g =>
    if ¬g.activeConnection ∧ g.loginState then
      (.onoff v .doSwitch, { g with activeConnection := true })
    else (.finished, g)
  | .onoff v .doSwitch, g =>
    (.onoff v .mirrorDim, { g with cloudCalls := g.cloudCalls ++ [.turnOnOff v] })
  | .onoff v .mirrorDim, g => (.onoff v .finishClear, g)
  | .onoff _ .finishClear, g => (.finished, { g with activeConnection := false })
  | .dim v .start, g =>
    if ¬g.activeConnection ∧ g.loginState then
      (.dim v .setOnoffCap, { g with activeConnectionDim := true })
    else (.finished, g)
  | .dim v .setOnoffCap, g => (.dim v .doSend, g)
  | .dim v .doSend, g =>
    (.dim v .finishClear,
     { g with cloudCalls := g.cloudCalls ++ [.setSwitch (dimPercentage v)] })
  | .dim _ .finishClear, g => (.finished, { g with activeConnectionDim := false })
  | .finished, g => (.finished, g)

/-- Run the thread chosen by the scheduler for one step. An index outside
the pool leaves everything unchanged. -/
def runOne (p : List HandlerThread × FlagState) (i : ℕ) :
    List HandlerThread × FlagState :=
  match p.1[i]? with
  | none => p
  | some t =>
    let r := stepThread t p.2
    (p.1.set i r.1, r.2)

/-- Run a whole schedule (a list of thread indices) over a thread pool. -/
def runSched (pool : List HandlerThread) (g : FlagState) (sched : List ℕ) :
    List HandlerThread × FlagState :=
  sched.foldl runOne (pool, g)

/-! ## BLE fallback path (device.js: switchBLE, findCrownstone, switchCloud)

`onCapabilityOnoff` dispatches `switchCloud(value)` and only on rejection
falls into `switchBLE(value)`; a rejection of `switchBLE` is logged and
terminal. `findCrownstone` lowercases the address, strips colons, calls
`Homey.ManagerBLE.find(uuid, 10000)`, catches any rejection and returns the
advertisement when truthy, `null` otherwise. `switchBLE` does not check the
advertisement for `null` before `bluenet.connect(homeyAdvertisement)`. -/

structure BleEnv where
  /-- Outcome of `Homey.ManagerBLE.find uuid timeoutMs`; an error models a
  rejection (timeout / not found). -/
  find : String → ℕ → Except String String
  /-- Whether `bluenet.connect` resolves for a given (optional) advertisement. -/
  connectOk : Option String → Bool
  /-- Whether `bluenet.control.setSwitchState` resolves. -/
  switchCmdOk : Bool
  /-- Whether the cloud keys fetch inside `getKeys` resolves (its rejection is
  caught inside `switchBLE` and execution continues). -/
  keysFetchOk : Bool

/-- The uuid used for discovery: address lowercased with colons removed. -/
def uuidOf (address : String) : String :=
  (address.toLower).replace ":" ""

/-- `findCrownstone`: bounded discovery with a fixed 10000 ms timeout; a
rejection of `find` is caught and yields `none` (`null`), never an
exception. -/
def findCrownstone (env : BleEnv) (address : String) : Option String :=
  match env.find (uuidOf address) 10000 with
  | .ok adv => some adv
  | .error _ => none

/-- Observable steps of one radio (BLE) attempt, in order. -/
inductive BleEv
  | keyRetrieval
  | discover (uuid : String)
  | connectCall (adv : Option String)
  | switchCmd (state : ℕ)
  | controlDisconnect
  | fullDisconnect
  deriving DecidableEq, Repr

/-- `switchBLE(value)`: key retrieval (failure caught and ignored), discovery,
connect with whatever the discovery returned, switch command, disconnects.
Returns the trace of steps actually executed and whether the attempt
resolved; a rejection at connect or at the switch command aborts the rest of
the attempt (the caller catches it and gives up). -/
def switchBLE (env : BleEnv) (address : String) (value : Bool) :
    List BleEv × Bool :=
  let state : ℕ := if value = true then 1 else 0
  let adv := findCrownstone env address
  let pre := [BleEv.keyRetrieval, BleEv.discover (uuidOf address),
              BleEv.connectCall adv]
  if env.connectOk adv then
    if env.switchCmdOk then
      (pre ++ [BleEv.switchCmd state, BleEv.controlDisconnect,
               BleEv.fullDisconnect], true)
    else (pre ++ [BleEv.switchCmd state], false)
  else (pre, false)

/-- Observable transport-level events of one `onCapabilityOnoff` dispatch. -/
inductive DispatchEv
  | cloudAttempt (value : Bool)
  | ble (e : BleEv)
  deriving DecidableEq, Repr

/-- The dispatch part of `onCapabilityOnoff` after its guard: one cloud
attempt (`switchCloud`), and on its rejection exactly one `switchBLE`
attempt whose own rejection is caught and terminal. -/
def onoffDispatch (cloudOk : Bool) (env : BleEnv) (address : String)
    (value : Bool) : List DispatchEv :=
  if cloudOk then [DispatchEv.cloudAttempt value]
  else DispatchEv.cloudAttempt value ::
    (switchBLE env address value).1.map DispatchEv.ble

/-- Number of radio attempts in a dispatch trace, counted by discovery
events. -/
def radioAttemptCount (tr : List DispatchEv) : ℕ :=
  tr.countP (fun e =>
    match e with
    | DispatchEv.ble (BleEv.discover _) => true
    | _ => false)

/-- Number of cloud attempts in a dispatch trace. -/
def cloudAttemptCount (tr : List DispatchEv) : ℕ :=
  tr.countP (fun e =>
    match e with
    | DispatchEv.cloudAttempt _ => true
    | _ => false)

/-! ## Presence condition (app module: presenceCondition, getCurrentLocation)

`getCurrentLocation` polls `cloud.me().currentLocation()`; when a location
and a sphere list are available it stores `sphereId`, `inLocationName`,
`inLocationId` from `userLocation[0].inSpheres[0]`; on any failure the
module-level variables are left alone (the caller catches). The condition
run listener awaits `getCurrentLocation` and answers
`args.rooms.id === inLocationId && args.rooms.name === inLocationName` when
both variables are defined, `false` otherwise. -/

structure InSphereRec where
  sphereId : String
  locationId : String
  locationName : String
  deriving DecidableEq, Repr

structure UserLocRec where
  inSpheres : List InSphereRec
  deriving DecidableEq, Repr

structure PresenceEnv where
  /-- Outcome of `cloud.me().currentLocation()`; an error models a rejected
  remote call. -/
  currentLocation : Except String (List UserLocRec)
  /-- Outcome of `cloud.spheres()`. -/
  spheres : Except String (List String)

structure PresenceVars where
  sphereId : Option String
  inLocationName : Option String
  inLocationId : Option String
  deriving DecidableEq, Repr

/-- `getCurrentLocation`: updates the module-level location variables from a
poll; every failure path (remote rejection, empty user location, empty
sphere list, missing `inSpheres` entry) leaves them unchanged. -/
def getCurrentLocation (env : PresenceEnv) (st : PresenceVars) : PresenceVars :=
  match env.currentLocation with
  | .error _ => st
  | .ok userLocation =>
    match userLocation with
    | [] => st
    | u0 :: _ =>
      match env.spheres with
      | .error _ => st
      | .ok spheres =>
        if spheres.isEmpty then st
        else
          match u0.inSpheres with
          | [] => st
          | r :: _ =>
            { sphereId := some r.sphereId,
              inLocationName := some r.locationName,
              inLocationId := some r.locationId }

/-- The run listener of the presence condition card: poll first, then compare
both id and name against the (possibly refreshed) variables; undefined
variables give `false`. Returns the answer and the refreshed variables. -/
def presenceConditionRun (args : RoomArg) (env : PresenceEnv)
    (st : PresenceVars) : Bool × PresenceVars :=
  let st2 := getCurrentLocation env st
  match st2.inLocationId, st2.inLocationName with
  | some lid, some lname => (args.id = lid ∧ args.name = lname, st2)
  | some _, none => (false, st2)
  | none, _ => (false, st2)

/-! ## App login and synchronization (app.ts)

`setupConnections` sets `loggedIn := false`, tries `mirror.login` and
`serverEvents.login`, each failure caught with an early return, and only
after both sets `loggedIn := true` — it never rethrows. `synchronizeCloud`
calls it inside a dead `try`, then `mirror.getAll()`, `mapper.mapAll()` and
`deviceManager.updateDevices()`. `setSettings` validates the fields, calls
`setupConnections`, stores the credentials and returns `loggedIn`.

The Mirror and Mapper classes are not among the available sources; their
cache effects are modelled from the spec (see the doc comments below). -/

structure AppEnv where
  /-- Whether `mirror.login` (the cloud login) resolves. -/
  loginOk : Bool
  /-- Whether `serverEvents.login` (the event-server login) resolves. -/
  sseOk : Bool
  /-- The remote data a successful full mirror pass would fetch. -/
  snapshot : List (String × String)

structure AppState where
  loggedIn : Bool
  /-- Whether the mirror holds an authenticated cloud session. -/
  mirrorSession : Bool
  rawCache : List (String × String)
  fastCache : List (String × String)
  settingsEmail : String
  settingsPassword : String
  deriving DecidableEq, Repr

/-- Modelled from the spec: `Mirror.login` (class Mirror is outside the
available sources) establishes the remote-service session, fails with
`AuthError` on bad credentials or unreachable service, and on failure
modifies no caches. -/
def mirrorLogin (env : AppEnv) (st : AppState) : Except String AppState :=
  if env.loginOk then .ok { st with mirrorSession := true }
  else .error "AuthError"

/-- Modelled from the spec: `Mirror.getAll` (class Mirror is outside the
available sources) fetches everything reachable by the authenticated account
and replaces the raw cache wholesale; with no authenticated session no
sphere succeeds, so it fails with `FetchError` and touches no caches. -/
def mirrorGetAll (env : AppEnv) (st : AppState) : Except String AppState :=
  if st.mirrorSession then .ok { st with rawCache := env.snapshot }
  else .error "FetchError"

/-- Modelled from the spec: `Mapper.mapAll` (class Mapper is outside the
available sources) deterministically projects the raw cache into the fast
cache; the projection itself is a parameter. -/
def mapAll (project : List (String × String) → List (String × String))
    (st : AppState) : AppState :=
  { st with fastCache := project st.rawCache }

/-- `setupConnections(email, password)` from app.ts: resets `loggedIn`,
returns early (without rethrowing) when either login rejects, otherwise
marks the app logged in. -/
def setupConnections (env : AppEnv) (st : AppState) : AppState :=
  let st1 := { st with loggedIn := false }
  match mirrorLogin env st1 with
  | .error _ => st1
  | .ok st2 =>
    if env.sseOk then { st2 with loggedIn := true }
    else st2

/-- `synchronizeCloud` from app.ts: `setupConnections` (its `catch` is dead
code because `setupConnections` never rethrows), then the mirror/mapper
pipeline; a `getAll` rejection propagates out before the mapper runs. -/
def synchronizeCloud (project : List (String × String) → List (String × String))
    (env : AppEnv) (st : AppState) : AppState :=
  let st1 := setupConnections env st
  match mirrorGetAll env st1 with
  | .error _ => st1
  | .ok st2 => mapAll project st2

/-- `setSettings(email, password)` from app.ts: empty fields give `false`
immediately; otherwise `setupConnections` runs (never throwing, so the
`catch` returning `false` is dead), the credentials are stored, and the
`loggedIn` flag is returned. -/
def setSettings (env : AppEnv) (email password : String) (st : AppState) :
    Bool × AppState :=
  if email.isEmpty then (false, st)
  else if password.isEmpty then (false, st)
  else
    let st1 := setupConnections env st
    let st2 := { st1 with settingsEmail := email, settingsPassword := password }
    (st2.loggedIn, st2)

/-! ## Theorems -/

/-- C3: a dispatched dim request multiplies the fraction by 100; percentages
strictly between 0 and 10 are clamped up to 10 while exactly 10 and values
above 100 pass through unclamped; a percentage greater than 0 forces the
on-state to true and a percentage less than 1 forces it to false, in both
cases before the dim value is sent; and the test vector 0 / 0.05 / 0.5 / 1.0
evaluates to 0 percent off, 10 percent on, 50 percent on, 100 percent on. -/
theorem dim_fraction_to_percentage (value : ℚ) :
    (0 < value * 100 ∧ value * 100 < 10 → dimPercentage value = 10) ∧
    (¬(0 < value * 100 ∧ value * 100 < 10) → dimPercentage value = value * 100) ∧
    (0 < dimPercentage value →
      dimActions value =
        [DimAct.setOnoff true, DimAct.sendDim (dimPercentage value)]) ∧
    (dimPercentage value < 1 →
      dimActions value =
        [DimAct.setOnoff false, DimAct.sendDim (dimPercentage value)]) ∧
    dimActions 0 = [DimAct.setOnoff false, DimAct.sendDim 0] ∧
    dimActions (1/20) = [DimAct.setOnoff true, DimAct.sendDim 10] ∧
    dimActions (1/2) = [DimAct.setOnoff true, DimAct.sendDim 50] ∧
    dimActions 1 = [DimAct.setOnoff true, DimAct.sendDim 100] := by
  refine ⟨?_, ?_, ?_, ?_, ?_, ?_, ?_, ?_⟩
  · intro h
    simp only [dimPercentage]
    rw [if_pos h]
  · intro h
    simp only [dimPercentage]
    rw [if_neg h]
  · intro h
    simp only [dimActions]
    rw [if_pos h]
    rfl
  · intro h
    have h0 : ¬ 0 < dimPercentage value := by
      intro hc
      simp only [dimPercentage] at hc h
      split_ifs at hc h with hs
      · linarith
      · exact hs ⟨hc, by linarith⟩
    simp only [dimActions]
    rw [if_neg h0, if_pos h]
    rfl
  · norm_num [dimActions, dimPercentage]
  · norm_num [dimActions, dimPercentage]
  · norm_num [dimActions, dimPercentage]
  · norm_num [dimActions, dimPercentage]

/-- C3 witness: the theorem applied at the concrete fraction 1/20. -/
theorem dim_fraction_to_percentage_witness :
    dimPercentage (1/20) = 10 ∧
    dimActions (1/20) =
      [DimAct.setOnoff true, DimAct.sendDim (dimPercentage (1/20))] :=
  ⟨(dim_fraction_to_percentage (1/20)).1 (by norm_num),
   (dim_fraction_to_percentage (1/20)).2.2.1 (by norm_num [dimPercentage])⟩

/-- C8: reconciling the lock state and the dim capability is idempotent —
applying the same locked or dimmable value twice in a row leaves the
availability, the stored locked/dimmed flags and the capability set
identical to applying it once (for the capability set under the platform
invariant that capabilities are not duplicated). -/
theorem reconcile_lock_dim_idempotent :
    (∀ (s : Bool) (d : LockView),
      changeLockState s (changeLockState s d) = changeLockState s d) ∧
    (∀ (s : Bool) (d : DimCapView), d.caps.Nodup →
      changeDimCapability s (changeDimCapability s d) = changeDimCapability s d) := by
  constructor
  · intro s d
    rcases d with ⟨a, l⟩
    cases s <;> cases a <;> simp [changeLockState]
  · intro s d hnd
    rcases d with ⟨caps, f⟩
    by_cases hm : "dim" ∈ caps
    · cases s
      · simp [changeDimCapability, hm, List.Nodup.not_mem_erase hnd]
      · simp [changeDimCapability, hm]
    · cases s
      · simp [changeDimCapability, hm]
      · simp [changeDimCapability, hm]

/-- C8 witness: the theorem applied with a concrete device view holding a
duplicate-free capability set. -/
theorem reconcile_lock_dim_idempotent_witness :
    changeDimCapability true
        (changeDimCapability true { caps := ["onoff"], dimmedFlag := false }) =
      changeDimCapability true { caps := ["onoff"], dimmedFlag := false } :=
  reconcile_lock_dim_idempotent.2 true
    { caps := ["onoff"], dimmedFlag := false } (by decide)

/-- C5: for every push presence event, an exit event fires no trigger; an
enter event makes a registered trigger card run exactly once when the
configured room id and name both equal the event room id and name, and not
at all when either differs. -/
theorem presence_event_trigger_count (args : RoomArg) (d : SseEvent) :
    (d.subType = "exitLocation" → triggerFireCount args d = 0) ∧
    (d.type = "presence" → d.subType = "enterLocation" →
      args.id = d.locationId → args.name = d.locationName →
      triggerFireCount args d = 1) ∧
    (d.type = "presence" → d.subType = "enterLocation" →
      (args.id ≠ d.locationId ∨ args.name ≠ d.locationName) →
      triggerFireCount args d = 0) := by
  refine ⟨?_, ?_, ?_⟩
  · intro h
    have : ¬(d.type = "presence" ∧ d.subType = "enterLocation") := by
      rintro ⟨-, h2⟩
      rw [h] at h2
      exact absurd h2 (by decide)
    simp [triggerFireCount, eventHandlerFires, this]
  · intro h1 h2 h3 h4
    simp [triggerFireCount, eventHandlerFires, presenceTriggerRun, h1, h2, h3, h4]
  · intro h1 h2 h3
    rcases h3 with h3 | h3 <;>
      simp [triggerFireCount, eventHandlerFires, presenceTriggerRun, h1, h2, h3]

/-- C5 witness: the theorem applied to a concrete enter event matching the
configured room, and to the corresponding exit event. -/
theorem presence_event_trigger_count_witness :
    triggerFireCount { id := "A", name := "Kitchen" }
      { type := "presence", subType := "enterLocation",
        locationId := "A", locationName := "Kitchen" } = 1 ∧
    triggerFireCount { id := "A", name := "Kitchen" }
      { type := "presence", subType := "exitLocation",
        locationId := "A", locationName := "Kitchen" } = 0 :=
  ⟨(presence_event_trigger_count { id := "A", name := "Kitchen" }
      { type := "presence", subType := "enterLocation",
        locationId := "A", locationName := "Kitchen" }).2.1 rfl rfl rfl rfl,
   (presence_event_trigger_count { id := "A", name := "Kitchen" }
      { type := "presence", subType := "exitLocation",
        locationId := "A", locationName := "Kitchen" }).1 rfl⟩

/-- Helper: the partition loop yields an admin key whenever the device field
already held one or the fetched array contains an ADMIN_KEY entry. -/
theorem partitionKeys_adminKey_isSome (ks : List SphereKeyRec) :
    ∀ dev : DevKeyFields,
      (dev.adminKey.isSome ∨ ∃ k ∈ ks, k.keyType = "ADMIN_KEY") →
      (partitionKeys dev ks).adminKey.isSome := by
  induction ks with
  | nil =>
    intro dev h
    rcases h with h | ⟨k, hk, _⟩
    · simpa [partitionKeys] using h
    · simp at hk
  | cons k ks ih =>
    intro dev h
    show (partitionKeys (partitionStep dev k) ks).adminKey.isSome
    apply ih
    by_cases hk : k.keyType = "ADMIN_KEY"
    · left
      simp [partitionStep, hk]
    · rcases h with h | ⟨k2, hk2, ht⟩
      · left
        simp only [partitionStep]
        split_ifs <;> simpa using h
      · rcases List.mem_cons.mp hk2 with rfl | hmem
        · exact absurd ht hk
        · exact Or.inr ⟨k2, hmem, ht⟩

/-- Helper: the partition loop yields a member key whenever the device field
already held one or the fetched array contains a MEMBER_KEY entry. -/
theorem partitionKeys_memberKey_isSome (ks : List SphereKeyRec) :
    ∀ dev : DevKeyFields,
      (dev.memberKey.isSome ∨ ∃ k ∈ ks, k.keyType = "MEMBER_KEY") →
      (partitionKeys dev ks).memberKey.isSome := by
  induction ks with
  | nil =>
    intro dev h
    rcases h with h | ⟨k, hk, _⟩
    · simpa [partitionKeys] using h
    · simp at hk
  | cons k ks ih =>
    intro dev h
    show (partitionKeys (partitionStep dev k) ks).memberKey.isSome
    apply ih
    by_cases hk : k.keyType = "MEMBER_KEY"
    · left
      simp [partitionStep, hk]
    · rcases h with h | ⟨k2, hk2, ht⟩
      · left
        simp only [partitionStep]
        split_ifs <;> simpa using h
      · rcases List.mem_cons.mp hk2 with rfl | hmem
        · exact absurd ht hk
        · exact Or.inr ⟨k2, hmem, ht⟩

/-- Helper: the partition loop yields a basic key whenever the device field
already held one or the fetched array contains a BASIC_KEY entry. -/
theorem partitionKeys_basicKey_isSome (ks : List SphereKeyRec) :
    ∀ dev : DevKeyFields,
      (dev.basicKey.isSome ∨ ∃ k ∈ ks, k.keyType = "BASIC_KEY") →
      (partitionKeys dev ks).basicKey.isSome := by
  induction ks with
  | nil =>
    intro dev h
    rcases h with h | ⟨k, hk, _⟩
    · simpa [partitionKeys] using h
    · simp at hk
  | cons k ks ih =>
    intro dev h
    show (partitionKeys (partitionStep dev k) ks).basicKey.isSome
    apply ih
    by_cases hk : k.keyType = "BASIC_KEY"
    · left
      simp [partitionStep, hk]
    · rcases h with h | ⟨k2, hk2, ht⟩
      · left
        simp only [partitionStep]
        split_ifs <;> simpa using h
      · rcases List.mem_cons.mp hk2 with rfl | hmem
        · exact absurd ht hk
        · exact Or.inr ⟨k2, hmem, ht⟩

/-- C6: when all three key types are cached the key-retrieval call performs
zero remote calls and returns the cached keys unchanged; otherwise it
performs one fetch, partitions the fetched keys by type and caches them; and
once a fetch delivered all three types, any subsequent call performs zero
remote calls. -/
theorem key_cache_fetch_once (dev : DevKeyFields) (settings : BluenetKeys)
    (fetch fetch2 : List SphereKeyRec) :
    (settings.adminKey.isSome ∧ settings.memberKey.isSome ∧
        settings.basicKey.isSome →
      getKeys dev settings fetch = (dev, settings, 0)) ∧
    (¬(settings.adminKey.isSome ∧ settings.memberKey.isSome ∧
        settings.basicKey.isSome) →
      getKeys dev settings fetch =
        (partitionKeys dev fetch,
         { adminKey := (partitionKeys dev fetch).adminKey,
           memberKey := (partitionKeys dev fetch).memberKey,
           basicKey := (partitionKeys dev fetch).basicKey }, 1)) ∧
    ((∃ k ∈ fetch, k.keyType = "ADMIN_KEY") →
     (∃ k ∈ fetch, k.keyType = "MEMBER_KEY") →
     (∃ k ∈ fetch, k.keyType = "BASIC_KEY") →
      (getKeys (getKeys dev settings fetch).1 (getKeys dev settings fetch).2.1
        fetch2).2.2 = 0) := by
  refine ⟨?_, ?_, ?_⟩
  · intro h
    simp only [getKeys]
    rw [if_pos h]
  · intro h
    simp only [getKeys]
    rw [if_neg h]
  · intro ha hm hb
    by_cases hc : settings.adminKey.isSome ∧ settings.memberKey.isSome ∧
        settings.basicKey.isSome
    · simp only [getKeys]
      rw [if_pos hc]
      simp only [getKeys]
      rw [if_pos hc]
    · simp only [getKeys]
      rw [if_neg hc]
      simp only [getKeys]
      rw [if_pos ⟨partitionKeys_adminKey_isSome fetch dev (Or.inr ha),
        partitionKeys_memberKey_isSome fetch dev (Or.inr hm),
        partitionKeys_basicKey_isSome fetch dev (Or.inr hb)⟩]

/-- C6 witness: the theorem applied with fully cached settings (zero remote
calls) at a concrete input. -/
theorem key_cache_fetch_once_witness :
    getKeys { adminKey := none, memberKey := none, basicKey := none }
        { adminKey := some "a", memberKey := some "m", basicKey := some "b" }
        [] =
      ({ adminKey := none, memberKey := none, basicKey := none },
       { adminKey := some "a", memberKey := some "m", basicKey := some "b" },
       0) :=
  (key_cache_fetch_once
      { adminKey := none, memberKey := none, basicKey := none }
      { adminKey := some "a", memberKey := some "m", basicKey := some "b" }
      [] []).1 (by simp)

/-- C1 counterexample: two dim requests overlap (the second is issued one
step after the first passed its guard, while the first is still
outstanding), yet both reach the transport — the cloud `setSwitch` is
invoked twice for the overlapping pair, not once, because the dim handler's
guard never reads the dim in-flight flag. -/
theorem overlapping_dim_pair_both_dispatch_cex :
    ((runSched
        [HandlerThread.dim 1 DimPC.start, HandlerThread.dim 0 DimPC.start]
        { activeConnection := false, activeConnectionDim := false,
          loginState := true, cloudCalls := [] }
        [0, 1, 0, 1, 0, 1, 0, 1]).2.cloudCalls =
      [CloudCall.setSwitch 100, CloudCall.setSwitch 0]) ∧
    ((runSched
        [HandlerThread.dim 1 DimPC.start, HandlerThread.dim 0 DimPC.start]
        { activeConnection := false, activeConnectionDim := false,
          loginState := true, cloudCalls := [] }
        [0]).1 =
      [HandlerThread.dim 1 DimPC.setOnoffCap,
       HandlerThread.dim 0 DimPC.start]) ∧
    ((runSched
        [HandlerThread.dim 1 DimPC.start, HandlerThread.dim 0 DimPC.start]
        { activeConnection := false, activeConnectionDim := false,
          loginState := true, cloudCalls := [] }
        [0, 1, 0, 1, 0, 1, 0, 1]).2.cloudCalls.length ≠ 1) := by
  have h1 : dimPercentage 1 = 100 := by norm_num [dimPercentage]
  have h2 : dimPercentage 0 = 0 := by norm_num [dimPercentage]
  refine ⟨?_, ?_, ?_⟩
  · simp [runSched, runOne, stepThread, h1, h2]
  · simp [runSched, runOne, stepThread]
  · simp [runSched, runOne, stepThread, h1, h2]

/-- C1 (amended): the switch class is serialized by the global switch flag —
a switch or a dim request issued while a switch command is in flight is
silently dropped with no dispatch effect, and an overlapping switch pair
invokes the transport exactly once — but overlapping dim requests are not
serialized against each other: a concrete overlapping dim pair invokes the
transport twice. -/
theorem inflight_serialization_amended :
    (∀ (g : FlagState) (v : Bool), g.activeConnection = true →
      stepThread (HandlerThread.onoff v OnoffPC.start) g =
        (HandlerThread.finished, g)) ∧
    (∀ (g : FlagState) (v : ℚ), g.activeConnection = true →
      stepThread (HandlerThread.dim v DimPC.start) g =
        (HandlerThread.finished, g)) ∧
    ((runSched
        [HandlerThread.onoff true OnoffPC.start,
         HandlerThread.onoff false OnoffPC.start]
        { activeConnection := false, activeConnectionDim := false,
          loginState := true, cloudCalls := [] }
        [0, 1, 0, 1, 0, 1, 0, 1]).2.cloudCalls =
      [CloudCall.turnOnOff true]) ∧
    ((runSched
        [HandlerThread.dim 1 DimPC.start, HandlerThread.dim 0 DimPC.start]
        { activeConnection := false, activeConnectionDim := false,
          loginState := true, cloudCalls := [] }
        [0, 1, 0, 1, 0, 1, 0, 1]).2.cloudCalls.length = 2) := by
  have h1 : dimPercentage 1 = 100 := by norm_num [dimPercentage]
  have h2 : dimPercentage 0 = 0 := by norm_num [dimPercentage]
  refine ⟨?_, ?_, ?_, ?_⟩
  · intro g v h
    simp [stepThread, h]
  · intro g v h
    simp [stepThread, h]
  · simp [runSched, runOne, stepThread]
  · simp [runSched, runOne, stepThread, h1, h2]

/-- C1 witness: the request-dropping conjuncts of the amended theorem
applied at a concrete state with a switch command in flight. -/
theorem inflight_serialization_amended_witness :
    stepThread (HandlerThread.onoff true OnoffPC.start)
        { activeConnection := true, activeConnectionDim := false,
          loginState := true, cloudCalls := [] } =
      (HandlerThread.finished,
       { activeConnection := true, activeConnectionDim := false,
         loginState := true, cloudCalls := [] }) ∧
    stepThread (HandlerThread.dim (1/2) DimPC.start)
        { activeConnection := true, activeConnectionDim := false,
          loginState := true, cloudCalls := [] } =
      (HandlerThread.finished,
       { activeConnection := true, activeConnectionDim := false,
         loginState := true, cloudCalls := [] }) :=
  ⟨inflight_serialization_amended.1
      { activeConnection := true, activeConnectionDim := false,
        loginState := true, cloudCalls := [] } true rfl,
   inflight_serialization_amended.2.1
      { activeConnection := true, activeConnectionDim := false,
        loginState := true, cloudCalls := [] } (1/2) rfl⟩

/-- C9: a dim request issued while a switch command is in flight is silently
dropped — the dim guard reads the global switch flag; no step of either
handler consults the dim in-flight flag (neither the next program counter,
nor the switch flag, nor the transport log depend on it), although the dim
flag is set when the dim guard passes and cleared at the end of a dim
dispatch. -/
theorem dim_guard_ignores_dim_flag :
    (∀ (g : FlagState) (v : ℚ), g.activeConnection = true →
      stepThread (HandlerThread.dim v DimPC.start) g =
        (HandlerThread.finished, g)) ∧
    (∀ (t : HandlerThread) (g : FlagState) (b : Bool),
      (stepThread t { g with activeConnectionDim := b }).1 =
        (stepThread t g).1 ∧
      (stepThread t { g with activeConnectionDim := b }).2.activeConnection =
        (stepThread t g).2.activeConnection ∧
      (stepThread t { g with activeConnectionDim := b }).2.cloudCalls =
        (stepThread t g).2.cloudCalls) ∧
    (∀ (g : FlagState) (v : ℚ), g.activeConnection = false →
      g.loginState = true →
      (stepThread (HandlerThread.dim v DimPC.start) g).2.activeConnectionDim =
        true) ∧
    (∀ (g : FlagState) (v : ℚ),
      (stepThread (HandlerThread.dim v DimPC.finishClear) g).2.activeConnectionDim =
        false) := by
  refine ⟨?_, ?_, ?_, ?_⟩
  · intro g v h
    simp [stepThread, h]
  · intro t g b
    rcases t with ⟨v, pc⟩ | ⟨v, pc⟩ | _
    · cases pc
      · by_cases hc : g.activeConnection = false ∧ g.loginState = true <;>
          simp [stepThread, hc]
      · simp [stepThread]
      · simp [stepThread]
      · simp [stepThread]
    · cases pc
      · by_cases hc : g.activeConnection = false ∧ g.loginState = true <;>
          simp [stepThread, hc]
      · simp [stepThread]
      · simp [stepThread]
      · simp [stepThread]
    · simp [stepThread]
  · intro g v h1 h2
    simp [stepThread, h1, h2]
  · intro g v
    simp [stepThread]

/-- C9 witness: the theorem applied at concrete states — a dim request
arriving while a switch is in flight is dropped, and the dim flag is raised
by a passing dim guard. -/
theorem dim_guard_ignores_dim_flag_witness :
    stepThread (HandlerThread.dim 1 DimPC.start)
        { activeConnection := true, activeConnectionDim := true,
          loginState := true, cloudCalls := [] } =
      (HandlerThread.finished,
       { activeConnection := true, activeConnectionDim := true,
         loginState := true, cloudCalls := [] }) ∧
    (stepThread (HandlerThread.dim 1 DimPC.start)
        { activeConnection := false, activeConnectionDim := false,
          loginState := true, cloudCalls := [] }).2.activeConnectionDim = true :=
  ⟨dim_guard_ignores_dim_flag.1
      { activeConnection := true, activeConnectionDim := true,
        loginState := true, cloudCalls := [] } 1 rfl,
   dim_guard_ignores_dim_flag.2.2.1
      { activeConnection := false, activeConnectionDim := false,
        loginState := true, cloudCalls := [] } 1 rfl rfl⟩

/-- C2: every dispatched on/off request attempts the cloud transport first;
exactly one radio attempt follows when and only when the cloud attempt
fails, beginning with key retrieval, then bounded discovery by address, then
connect; when the cloud attempt succeeds there are zero radio attempts; and
a failed radio attempt stays a single attempt (no automatic retry),
whatever the radio environment does. -/
theorem onoff_cloud_first_radio_fallback (cloudOk : Bool) (env : BleEnv)
    (address : String) (value : Bool) :
    (onoffDispatch cloudOk env address value).head? =
      some (DispatchEv.cloudAttempt value) ∧
    cloudAttemptCount (onoffDispatch cloudOk env address value) = 1 ∧
    radioAttemptCount (onoffDispatch cloudOk env address value) =
      (if cloudOk = true then 0 else 1) ∧
    (cloudOk = true →
      onoffDispatch cloudOk env address value =
        [DispatchEv.cloudAttempt value]) ∧
    (cloudOk = false →
      (onoffDispatch cloudOk env address value).take 4 =
        [DispatchEv.cloudAttempt value, DispatchEv.ble BleEv.keyRetrieval,
         DispatchEv.ble (BleEv.discover (uuidOf address)),
         DispatchEv.ble (BleEv.connectCall (findCrownstone env address))]) := by
  cases cloudOk
  · simp only [onoffDispatch, switchBLE, radioAttemptCount, cloudAttemptCount]
    split_ifs <;> simp_all [List.countP_cons, List.countP_nil]
  · simp [onoffDispatch, radioAttemptCount, cloudAttemptCount,
      List.countP_cons, List.countP_nil]

/-- C2 witness: the theorem applied to a failing cloud attempt with a radio
environment whose discovery times out and whose connect rejects. -/
theorem onoff_cloud_first_radio_fallback_witness :
    (onoffDispatch false
        { find := fun _ _ => Except.error "timeout", connectOk := fun _ => false,
          switchCmdOk := true, keysFetchOk := true } "ab" true).take 4 =
      [DispatchEv.cloudAttempt true, DispatchEv.ble BleEv.keyRetrieval,
       DispatchEv.ble (BleEv.discover (uuidOf "ab")),
       DispatchEv.ble (BleEv.connectCall (findCrownstone
         { find := fun _ _ => Except.error "timeout", connectOk := fun _ => false,
           switchCmdOk := true, keysFetchOk := true } "ab"))] :=
  (onoff_cloud_first_radio_fallback false
      { find := fun _ _ => Except.error "timeout", connectOk := fun _ => false,
        switchCmdOk := true, keysFetchOk := true } "ab" true).2.2.2.2 rfl

/-- C10: when discovery rejects (times out), `findCrownstone` resolves to
`none` rather than raising, and the BLE switch path does not check for that:
the trace shows key retrieval and discovery followed by a connect call whose
argument is the null advertisement, so the radio attempt can only fail
downstream at the connect stage. -/
theorem discovery_timeout_null_reaches_connect (env : BleEnv)
    (address : String) (value : Bool) (e : String) :
    env.find (uuidOf address) 10000 = Except.error e →
    findCrownstone env address = none ∧
    (switchBLE env address value).1.take 3 =
      [BleEv.keyRetrieval, BleEv.discover (uuidOf address),
       BleEv.connectCall none] := by
  intro h
  have hf : findCrownstone env address = none := by
    simp [findCrownstone, h]
  refine ⟨hf, ?_⟩
  simp only [switchBLE, hf]
  split_ifs <;> simp

/-- C10 witness: the theorem applied to an environment whose discovery call
always rejects. -/
theorem discovery_timeout_null_reaches_connect_witness :
    findCrownstone
        { find := fun _ _ => Except.error "timeout", connectOk := fun _ => true,
          switchCmdOk := true, keysFetchOk := true } "ab" = none ∧
    (switchBLE
        { find := fun _ _ => Except.error "timeout", connectOk := fun _ => true,
          switchCmdOk := true, keysFetchOk := true } "ab" true).1.take 3 =
      [BleEv.keyRetrieval, BleEv.discover (uuidOf "ab"),
       BleEv.connectCall none] :=
  discovery_timeout_null_reaches_connect
    { find := fun _ _ => Except.error "timeout", connectOk := fun _ => true,
      switchCmdOk := true, keysFetchOk := true } "ab" true "timeout" rfl

/-- C7: the presence condition answers from the state refreshed by the poll
performed before answering; it returns true exactly when the refreshed last
known location matches the given room by both id and name, and false
(without erroring) whenever the location cannot be determined. -/
theorem presence_condition_poll_and_match (args : RoomArg) (env : PresenceEnv)
    (st : PresenceVars) :
    (presenceConditionRun args env st).2 = getCurrentLocation env st ∧
    ((presenceConditionRun args env st).1 = true ↔
      (getCurrentLocation env st).inLocationId = some args.id ∧
      (getCurrentLocation env st).inLocationName = some args.name) ∧
    ((getCurrentLocation env st).inLocationId = none ∨
        (getCurrentLocation env st).inLocationName = none →
      (presenceConditionRun args env st).1 = false) := by
  rcases h1 : (getCurrentLocation env st).inLocationId with _ | lid <;>
    rcases h2 : (getCurrentLocation env st).inLocationName with _ | lname <;>
      simp [presenceConditionRun, h1, h2]
  exact ⟨fun h => ⟨h.1.symm, h.2.symm⟩, fun h => ⟨h.1.symm, h.2.symm⟩⟩

/-- C7 witness: the theorem applied to a poll that locates the user in the
configured room. -/
theorem presence_condition_poll_and_match_witness :
    (presenceConditionRun { id := "A", name := "Kitchen" }
        { currentLocation := Except.ok
            [{ inSpheres := [{ sphereId := "S", locationId := "A",
                               locationName := "Kitchen" }] }],
          spheres := Except.ok ["S"] }
        { sphereId := none, inLocationName := none, inLocationId := none }).1 =
      true :=
  (presence_condition_poll_and_match { id := "A", name := "Kitchen" }
      { currentLocation := Except.ok
          [{ inSpheres := [{ sphereId := "S", locationId := "A",
                             locationName := "Kitchen" }] }],
        spheres := Except.ok ["S"] }
      { sphereId := none, inLocationName := none,
        inLocationId := none }).2.1.mpr ⟨by rfl, by rfl⟩

/-- C4: when login against the remote service fails, the synchronization
attempt modifies neither the raw cache nor the fast cache (with no prior
authenticated mirror session), and the settings flow receives only a boolean
false. The Mirror and Mapper cache effects are modelled from the spec. -/
theorem failed_login_no_cache_writes
    (project : List (String × String) → List (String × String))
    (env : AppEnv) (st : AppState) (email password : String) :
    env.loginOk = false → st.mirrorSession = false →
    (synchronizeCloud project env st).rawCache = st.rawCache ∧
    (synchronizeCloud project env st).fastCache = st.fastCache ∧
    (setSettings env email password st).1 = false ∧
    (setSettings env email password st).2.rawCache = st.rawCache ∧
    (setSettings env email password st).2.fastCache = st.fastCache := by
  intro hl hs
  have hsetup : setupConnections env st = { st with loggedIn := false } := by
    simp [setupConnections, mirrorLogin, hl]
  have hsync : synchronizeCloud project env st = { st with loggedIn := false } := by
    simp [synchronizeCloud, hsetup, mirrorGetAll, hs]
  have hset1 : (setSettings env email password st).1 = false := by
    simp only [setSettings]
    split_ifs <;> simp [hsetup]
  have hset2 : (setSettings env email password st).2.rawCache = st.rawCache := by
    simp only [setSettings]
    split_ifs <;> simp [hsetup]
  have hset3 : (setSettings env email password st).2.fastCache = st.fastCache := by
    simp only [setSettings]
    split_ifs <;> simp [hsetup]
  exact ⟨by rw [hsync], by rw [hsync], hset1, hset2, hset3⟩

/-- C4 witness: the theorem applied to a failed login over a fresh state
with non-empty caches, showing they are left exactly as they were. -/
theorem failed_login_no_cache_writes_witness :
    (synchronizeCloud (fun l => l)
        { loginOk := false, sseOk := true, snapshot := [("sphere:1", "S")] }
        { loggedIn := false, mirrorSession := false,
          rawCache := [("device:7", "plug")], fastCache := [("7", "plug")],
          settingsEmail := "", settingsPassword := "" }).rawCache =
      [("device:7", "plug")] ∧
    (setSettings
        { loginOk := false, sseOk := true, snapshot := [("sphere:1", "S")] }
        "user" "pass"
        { loggedIn := false, mirrorSession := false,
          rawCache := [("device:7", "plug")], fastCache := [("7", "plug")],
          settingsEmail := "", settingsPassword := "" }).1 = false :=
  ⟨(failed_login_no_cache_writes (fun l => l)
      { loginOk := false, sseOk := true, snapshot := [("sphere:1", "S")] }
      { loggedIn := false, mirrorSession := false,
        rawCache := [("device:7", "plug")], fastCache := [("7", "plug")],
        settingsEmail := "", settingsPassword := "" } "user" "pass" rfl rfl).1,
   (failed_login_no_cache_writes (fun l => l)
      { loginOk := false, sseOk := true, snapshot := [("sphere:1", "S")] }
      { loggedIn := false, mirrorSession := false,
        rawCache := [("device:7", "plug")], fastCache := [("7", "plug")],
        settingsEmail := "", settingsPassword := "" } "user" "pass" rfl
      rfl).2.2.1⟩
